import Mathlib

/-!
Verification of the database-classifier core: the classification engine
(`pkg/classifier/classifier.go`), the risk scorer and scan orchestrator
(`internal/service/scan_service.go`), and the pattern hot-reload layer
(`ClassificationService.refreshClassifier`).

Modelling conventions:
* Go strings are `List Char` (`GoStr`); `str` turns a Lean string literal
  into one.  `strings.TrimSpace` / `strings.ToLower` / `strings.Contains`
  are modelled character-wise for the ASCII range.
* Go `float64` scores are modelled as exact rationals `ℚ`.
* A compiled `*regexp.Regexp` is abstracted by the two operations the code
  uses on it, `MatchString` and `FindString` (`Regexp`); `regexp.Compile`
  is a parameter `GoStr → Option Regexp`.
* Go `sort.Slice` guarantees only that its output is a permutation of the
  input that is sorted with respect to the comparator; it is documented as
  NOT stable.  It is therefore modelled by the relation `goSortSlice`,
  which admits every sorted permutation.  Functions calling `sort.Slice`
  become relations between their input and their possible outputs.
-/

/-- Go strings, modelled as lists of characters. -/
def GoStr := List Char
deriving DecidableEq

instance : Append GoStr := ⟨List.append⟩

instance : Membership Char GoStr := ⟨fun s c => List.Mem c s⟩

/-- Turn a Lean string literal into a `GoStr`. -/
def str (s : String) : GoStr := s.data

/-- ASCII whitespace, the fragment of Go `unicode.IsSpace` relevant here. -/
def isSpaceChar (c : Char) : Bool :=
  c = ' ' || c = '\t' || c = '\n' || c = '\r'

/-- Model of Go `strings.TrimSpace` (ASCII fragment): drop leading and
trailing whitespace. -/
def goTrimSpace (s : GoStr) : GoStr :=
  ((List.dropWhile isSpaceChar s).reverse.dropWhile isSpaceChar).reverse

/-- Model of Go `strings.ToLower` (ASCII fragment). -/
def goToLower (s : GoStr) : GoStr := List.map Char.toLower s

/-- Model of Go `strings.Contains s sub`: `sub` occurs as a contiguous
substring of `s`. -/
def strContains (s sub : GoStr) : Bool :=
  match s with
  | [] => List.isEmpty sub
  | _ :: t => List.isPrefixOf sub s || strContains t sub

/-- `domain.InformationType` (`internal/domain/entities.go`). -/
inductive InformationType where
  | na | firstName | lastName | fullName | username
  | emailAddress | phoneNumber | creditCardNumber | accountNumber
  | ssn | passportNumber | ipAddress | macAddress | address
  | postalCode | dateOfBirth | nationalID | bankAccount | driverLicense
deriving DecidableEq

/-- `domain.RiskLevel`. -/
inductive RiskLevel where
  | low | medium | high | critical
deriving DecidableEq

/-- `domain.ScanStatus`. -/
inductive ScanStatus where
  | pending | running | completed | failed | cancelled
deriving DecidableEq

/-- The string rendered for a `ScanStatus` by Go `%s` formatting. -/
def statusText : ScanStatus → GoStr
  | .pending => str "pending"
  | .running => str "running"
  | .completed => str "completed"
  | .failed => str "failed"
  | .cancelled => str "cancelled"

/-- Abstraction of a compiled Go `*regexp.Regexp` by the two operations the
classifier uses: `MatchString` (does the regex match anywhere in the
string?) and `FindString` (text of the leftmost match). -/
structure Regexp where
  matchString : GoStr → Bool
  findString : GoStr → GoStr

/-- The `Regexp` behaviour of a literal-text regular expression `lit`
(no metacharacters): it matches a string iff the string contains `lit`,
and the leftmost match is `lit` itself. -/
def regexOfLit (lit : GoStr) : Regexp :=
  ⟨fun s => strContains s lit, fun s => if strContains s lit then lit else []⟩

/-- The `Regexp` behaviour of the regular expression `x*`: it matches every
string (an empty match at position 0 always exists), and the leftmost
match is the run of `x` at the start of the string. -/
def regexStar : Regexp :=
  ⟨fun _ => true, fun s => List.takeWhile (fun c => c = 'x') s⟩

/-- `domain.ClassificationPattern`, restricted to the fields the
classification engine reads (`SetPatterns` ignores the others). -/
structure ClassificationPattern where
  informationType : InformationType
  pattern : GoStr
  description : GoStr
  priority : Int

/-- `classifier.Pattern`: a rule together with its compiled regex. -/
structure Pattern where
  informationType : InformationType
  pattern : GoStr
  description : GoStr
  priority : Int
  regex : Regexp

/-- `classifier.Classifier`: the active pattern snapshot. -/
structure Classifier where
  patterns : List Pattern

/-- `classifier.MatchResult`. -/
structure MatchResult where
  informationType : InformationType
  confidenceScore : ℚ
  matchedPatterns : List GoStr
deriving DecidableEq

/-- The result `{NA, 0.0, []}`. -/
def emptyResult : MatchResult := ⟨.na, 0, []⟩

/-- The `commonWords` list of `calculateConfidenceScore`. -/
def commonWords : List GoStr :=
  [str "id", str "name", str "number", str "date", str "time",
   str "status", str "type"]

/-- `(*Classifier).calculateConfidenceScore` (classifier.go:113-145):
base = priority/100; +0.2 for a whole-string match, +0.1 for a partial
match; -0.1 if the name contains a common word and is shorter than 10
characters; the result is clamped into [0,1] by two successive tests. -/
def calculateConfidenceScore (columnName : GoStr) (p : Pattern) : ℚ :=
  let baseScore : ℚ := (p.priority : ℚ) / 100
  let exactMatch : ℚ :=
    if p.regex.matchString columnName then
      if p.regex.findString columnName = columnName then 2/10 else 1/10
    else 0
  let commonWordsPenalty : ℚ :=
    if List.any commonWords
        (fun w => strContains columnName w && decide (List.length columnName < 10))
      then 1/10 else 0
  let finalScore := baseScore + exactMatch - commonWordsPenalty
  let clampedHigh := if finalScore > 1 then 1 else finalScore
  if clampedHigh < 0 then 0 else clampedHigh

/-- The match-collection loop of `ClassifyColumn` (classifier.go:78-86):
every pattern of the snapshot whose regex matches the normalized name,
in snapshot order, paired with its confidence score. -/
def matchesFor (ps : List Pattern) (cleanName : GoStr) : List (Pattern × ℚ) :=
  List.map (fun p => (p, calculateConfidenceScore cleanName p))
    (List.filter (fun p => p.regex.matchString cleanName) ps)

/-- The comparator passed to `sort.Slice` in `ClassifyColumn`
(classifier.go:96-98): strictly greater score first. -/
def scoreGreater (a b : Pattern × ℚ) : Bool := decide (a.2 > b.2)

/-- The comparator passed to `sort.Slice` in `SetPatterns`
(classifier.go:54-56): strictly greater priority first. -/
def priorityGreater (a b : Pattern) : Bool := decide (a.priority > b.priority)

/-- Model of Go `sort.Slice lessFn`: the output is a permutation of the
input in which no element is strictly less (per the comparator) than a
later one.  `sort.Slice` is documented as not stable, so every sorted
permutation is admitted. -/
def goSortSlice {α : Type} (lessFn : α → α → Bool) (l sorted : List α) : Prop :=
  List.Perm l sorted ∧ List.Pairwise (fun a b => lessFn b a = false) sorted

/-- The result built from the sorted match list (classifier.go:100-110):
the head of the sorted list is the winner, `matchedPatterns` collects the
pattern texts of all matches in sorted order. -/
def headResult : List (Pattern × ℚ) → MatchResult → Prop
  | [], _ => False
  | best :: rest, r =>
      r = ⟨best.1.informationType, best.2,
           List.map (fun m => m.1.pattern) (best :: rest)⟩

/-- `(*Classifier).ClassifyColumn` (classifier.go:62-111), as a relation
between the input name and the possible results (relational because of
the unstable `sort.Slice` on matches).  Note the empty-input check is
performed on the raw name, before trimming and lowercasing. -/
def classifyColumnRel (c : Classifier) (columnName : GoStr) (r : MatchResult) : Prop :=
  if columnName = [] then r = emptyResult
  else
    match matchesFor c.patterns (goToLower (goTrimSpace columnName)) with
    | [] => r = emptyResult
    | m :: ms =>
        ∃ sorted, goSortSlice scoreGreater (m :: ms) sorted ∧ headResult sorted r

/-- The compilation loop of `(*Classifier).SetPatterns`
(classifier.go:39-52): compile every rule in order; the first rule whose
pattern text does not compile aborts the whole call with an error naming
that pattern text (Go wraps it as
`failed to compile regex pattern PATTERN: ...`; the model carries the
pattern text itself as the error value). -/
def compilePatterns (compile : GoStr → Option Regexp) :
    List ClassificationPattern → Except GoStr (List Pattern)
  | [] => .ok []
  | p :: ps =>
      match compile p.pattern with
      | none => .error p.pattern
      | some rx =>
          match compilePatterns compile ps with
          | .error t => .error t
          | .ok rest =>
              .ok (⟨p.informationType, p.pattern, p.description, p.priority, rx⟩ :: rest)

/-- `(*Classifier).SetPatterns` (classifier.go:38-60) as a relation between
the prior classifier state and the possible (new state, returned error)
pairs: on a compile error the method returns before assigning
`c.patterns`, so the prior snapshot survives; on success the snapshot is
the compiled list rearranged by the unstable `sort.Slice` with the
priority-descending comparator. -/
def setPatternsRel (compile : GoStr → Option Regexp) (c : Classifier)
    (ps : List ClassificationPattern) (cNew : Classifier) (res : Option GoStr) : Prop :=
  match compilePatterns compile ps with
  | .error t => cNew = c ∧ res = some t
  | .ok compiled =>
      res = none ∧ ∃ sorted, goSortSlice priorityGreater compiled sorted ∧ cNew = ⟨sorted⟩

/-- `(*ClassificationService).refreshClassifier` (service layer):
`NewClassifier` builds a brand-new classifier (starting from an empty one)
via `SetPatterns`; only on success is the service's matcher reference
replaced, so a failure leaves the previously published matcher intact and
surfaces the wrapped compile error. -/
def refreshClassifierRel (compile : GoStr → Option Regexp)
    (matcher : Option Classifier) (ps : List ClassificationPattern)
    (matcherNew : Option Classifier) (res : Option GoStr) : Prop :=
  ∃ cNew r, setPatternsRel compile ⟨[]⟩ ps cNew r ∧
    match r with
    | some e => matcherNew = matcher ∧ res = some (str "failed to prepare classifier: " ++ e)
    | none => matcherNew = some cNew ∧ res = none

/-- The high-risk information types of `calculateRiskLevel`
(scan_service.go:181-187). -/
def highRiskTypes : List InformationType :=
  [.creditCardNumber, .ssn, .passportNumber, .nationalID, .bankAccount]

/-- The medium-risk information types of `calculateRiskLevel`
(scan_service.go:189-195). -/
def mediumRiskTypes : List InformationType :=
  [.emailAddress, .phoneNumber, .dateOfBirth, .driverLicense, .accountNumber]

/-- The accumulation loop of `calculateRiskLevel` (scan_service.go:200-213):
for each map entry, add its count to the bucket whose type list contains
the key (the inner loops with `break` amount to a membership test). -/
def riskCountStep (types : List InformationType) (acc : Int)
    (e : InformationType × Int) : Int :=
  if e.1 ∈ types then acc + e.2 else acc

/-- `(*ScanService).calculateRiskLevel` (scan_service.go:176-227).  The Go
`map[InformationType]int` is modelled as its entry list; `float64`
percentages as exact rationals. -/
def calculateRiskLevel (infoTypeCounts : List (InformationType × Int))
    (totalColumns : Int) : RiskLevel :=
  if totalColumns = 0 then .low
  else
    let highRiskCount := List.foldl (riskCountStep highRiskTypes) 0 infoTypeCounts
    let mediumRiskCount := List.foldl (riskCountStep mediumRiskTypes) 0 infoTypeCounts
    let totalSensitiveColumns := highRiskCount + mediumRiskCount
    let riskPercentage : ℚ := (totalSensitiveColumns : ℚ) / (totalColumns : ℚ) * 100
    if highRiskCount > 0 ∧ riskPercentage > 20 then .critical
    else if highRiskCount > 0 ∨ riskPercentage > 15 then .high
    else if mediumRiskCount > 0 ∨ riskPercentage > 5 then .medium
    else .low

/-- The risk level exactly as the specification words it: `highCount` and
`medCount` are the sums of the counts over the high- and medium-risk
partitions, `pct = (highCount+medCount)/totalColumns*100`, and the level
is decided by the Critical/High/Medium/Low cascade. -/
def riskLevelSpec (infoTypeCounts : List (InformationType × Int))
    (totalColumns : Int) : RiskLevel :=
  if totalColumns = 0 then .low
  else
    let highCount :=
      List.sum (List.map (fun e => e.2)
        (List.filter (fun e => decide (e.1 ∈ highRiskTypes)) infoTypeCounts))
    let medCount :=
      List.sum (List.map (fun e => e.2)
        (List.filter (fun e => decide (e.1 ∈ mediumRiskTypes)) infoTypeCounts))
    let pct : ℚ := ((highCount + medCount : Int) : ℚ) / (totalColumns : ℚ) * 100
    if highCount > 0 ∧ pct > 20 then .critical
    else if highCount > 0 ∨ pct > 15 then .high
    else if medCount > 0 ∨ pct > 5 then .medium
    else .low

/-- A stored scan as `CancelScan` sees it: its status and message, the two
fields `UpdateStatus` writes. -/
structure ScanStatusRec where
  status : ScanStatus
  message : GoStr
deriving DecidableEq

/-- The scan-result store, keyed by scan id. -/
def ScanStore := Nat → Option ScanStatusRec

/-- `ScanResultRepository.UpdateStatus` restricted to the modelled fields:
overwrite the status and message of the given scan. -/
def updateStatusStore (store : ScanStore) (id : Nat) (st : ScanStatus)
    (msg : GoStr) : ScanStore :=
  fun i => if i = id then some ⟨st, msg⟩ else store i

/-- `(*ScanService).CancelScan` (scan_service.go:260-275): load the scan
(not-found error if absent), reject with an invalid-state error unless the
status is Pending or Running, otherwise write status Cancelled with the
fixed message.  Returns the store after the call and the error, if any. -/
def cancelScan (store : ScanStore) (id : Nat) : ScanStore × Option GoStr :=
  match store id with
  | none => (store, some (str "failed to get scan result: not found"))
  | some sr =>
      if sr.status ≠ ScanStatus.pending ∧ sr.status ≠ ScanStatus.running then
        (store, some (str "scan cannot be cancelled, current status: "
                        ++ statusText sr.status))
      else
        (updateStatusStore store id ScanStatus.cancelled (str "Cancelled by user"), none)

/-- The error-wrapping of `GetScanHistory`'s repository failure
(`fmt.Errorf("failed to get scan history: %w", err)`). -/
def wrapHistoryErr {α : Type} : Except GoStr α → Except GoStr α
  | .error e => .error (str "failed to get scan history: " ++ e)
  | .ok r => .ok r

/-- `(*ScanService).GetScanHistory` (scan_service.go:238-249), abstracted
over the repository query `fetch`: a non-positive limit is replaced by the
default 10 before the query. -/
def getScanHistory {α : Type} (fetch : Int → Except GoStr α) (limit : Int) :
    Except GoStr α :=
  let effLimit := if limit ≤ 0 then (10 : Int) else limit
  wrapHistoryErr (fetch effLimit)

/-- `domain.MySQLColumnInfo`, the fields `performScan` reads. -/
structure MySQLColumnInfo where
  columnName : GoStr
  dataType : GoStr
  isNullable : Bool
  defaultValue : Option GoStr

/-- `domain.MySQLTableInfo`, the fields `performScan` reads. -/
structure MySQLTableInfo where
  columns : List MySQLColumnInfo

/-- `domain.ColumnResult`. -/
structure ColumnResult where
  columnName : GoStr
  dataType : GoStr
  informationType : InformationType
  confidenceScore : ℚ
  matchedPatterns : List GoStr
  isNullable : Bool
  defaultValue : Option GoStr

/-- `domain.TableResult`. -/
structure TableResult where
  tableName : GoStr
  columns : List ColumnResult

/-- `domain.SchemaResult`. -/
structure SchemaResult where
  schemaName : GoStr
  tables : List TableResult

/-- The external collaborators of one run of the scan body, fixed up front:
each field gives the outcome the corresponding repository / encryptor /
inspector call would return during this run. -/
structure ScanEnv where
  updateRunningErr : Option GoStr
  decryptRes : Except GoStr GoStr
  connectErr : Option GoStr
  getSchemasRes : Except GoStr (List GoStr)
  getTablesRes : GoStr → Except GoStr (List GoStr)
  getTableInfoRes : GoStr → GoStr → Except GoStr MySQLTableInfo
  classify : GoStr → InformationType × ℚ × List GoStr
  updateResultErr : Option GoStr

/-- The repository / inspector-lifecycle calls the scan body issues, in
order.  `updateFull` is the single `scanRepo.Update` call persisting the
whole schema/table/column result tree; its flag records whether the write
succeeded. -/
inductive ScanEvent where
  | updateStatus (st : ScanStatus) (msg : GoStr)
  | inspectorNew
  | inspectorClose
  | updateFull (ok : Bool)
  | updateLastScanned
deriving DecidableEq

/-- The per-column loop of `performScan` (scan_service.go:116-135):
classify each column and build its `ColumnResult`. -/
def classifyColumns (env : ScanEnv) (cols : List MySQLColumnInfo) :
    List ColumnResult :=
  List.map (fun colInfo =>
    let res := env.classify colInfo.columnName
    ⟨colInfo.columnName, colInfo.dataType, res.1, res.2.1, res.2.2,
     colInfo.isNullable, colInfo.defaultValue⟩) cols

/-- The per-table loop of `performScan` (scan_service.go:107-141): fetch
each table's column metadata and classify it; an inspector error aborts
the whole scan with the wrapped message. -/
def scanTables (env : ScanEnv) (schemaName : GoStr) :
    List GoStr → Except GoStr (List TableResult)
  | [] => .ok []
  | t :: ts =>
      match env.getTableInfoRes schemaName t with
      | .error e =>
          .error (str "failed to get table info for " ++ schemaName
                    ++ str "." ++ t ++ str ": " ++ e)
      | .ok info =>
          match scanTables env schemaName ts with
          | .error e => .error e
          | .ok rest => .ok (⟨t, classifyColumns env info.columns⟩ :: rest)

/-- The per-schema loop of `performScan` (scan_service.go:98-147). -/
def scanSchemas (env : ScanEnv) :
    List GoStr → Except GoStr (List SchemaResult)
  | [] => .ok []
  | s :: ss =>
      match env.getTablesRes s with
      | .error e =>
          .error (str "failed to get tables for schema " ++ s ++ str ": " ++ e)
      | .ok tables =>
          match scanTables env s tables with
          | .error e => .error e
          | .ok tableResults =>
              match scanSchemas env ss with
              | .error e => .error e
              | .ok rest => .ok (⟨s, tableResults⟩ :: rest)

/-- The part of `performScan` that runs after `NewMySQLInspector()`
(scan_service.go:83-173), without the deferred `Close` (the caller adds
it): connect, enumerate and classify, then persist the completed result;
`UpdateLastScannedAt` failure is only logged.  Returns the issued events
and the error the function returns, if any. -/
def afterInspector (env : ScanEnv) : List ScanEvent × Option GoStr :=
  match env.connectErr with
  | some e => ([], some (str "failed to connect to MySQL: " ++ e))
  | none =>
      match env.getSchemasRes with
      | .error e => ([], some (str "failed to get schemas: " ++ e))
      | .ok schemas =>
          match scanSchemas env schemas with
          | .error e => ([], some e)
          | .ok _schemaResults =>
              match env.updateResultErr with
              | some e =>
                  ([ScanEvent.updateFull false],
                   some (str "failed to update scan result: " ++ e))
              | none =>
                  ([ScanEvent.updateFull true, ScanEvent.updateLastScanned], none)

/-- `(*ScanService).performScan` (scan_service.go:68-174): set the status
to Running, decrypt the credentials, then create the inspector — from that
point `defer inspector.Close()` guarantees a `Close` on every exit path.
Returns the issued events and the returned error, if any. -/
def performScan (env : ScanEnv) : List ScanEvent × Option GoStr :=
  let ev0 := [ScanEvent.updateStatus .running []]
  match env.updateRunningErr with
  | some e => (ev0, some (str "failed to update scan status to running: " ++ e))
  | none =>
      match env.decryptRes with
      | .error e => (ev0, some (str "failed to decrypt password: " ++ e))
      | .ok _password =>
          let body := afterInspector env
          (ev0 ++ [ScanEvent.inspectorNew] ++ body.1 ++ [ScanEvent.inspectorClose],
           body.2)

/-- The background task launched by `StartScan` (scan_service.go:57-62):
run the scan body and convert any returned error into an `UpdateStatus
Failed` write carrying the error's message text; nothing is ever thrown
past this boundary. -/
def runScanTask (env : ScanEnv) : List ScanEvent :=
  match (performScan env).2 with
  | some e => (performScan env).1 ++ [ScanEvent.updateStatus .failed e]
  | none => (performScan env).1

/-- `(*ScanService).StartScan` (scan_service.go:36-65), reduced to the
claim-relevant behaviour: after the Pending record is created the caller
immediately receives the scan id; the scan body runs as a detached task
(modelled: its event trace is returned alongside), and its outcome never
changes what the caller receives; a creation failure is the only error
the caller can see. -/
def startScan (createErr : Option GoStr) (env : ScanEnv) :
    Except GoStr (List ScanEvent) :=
  match createErr with
  | some e => .error (str "failed to create scan result: " ++ e)
  | none => .ok (runScanTask env)


/-! General helper lemmas shared by several claims. -/

/-- The accumulation loop of `calculateRiskLevel` computes the sum of the
counts of the entries whose type lies in the given partition. -/
theorem riskCount_eq_sum (types : List InformationType)
    (l : List (InformationType × Int)) :
    ∀ acc : Int, List.foldl (riskCountStep types) acc l
      = acc + List.sum (List.map (fun e => e.2)
          (List.filter (fun e => decide (e.1 ∈ types)) l)) := by
  induction l with
  | nil => intro acc; simp
  | cons e t ih =>
      intro acc
      by_cases h : e.1 ∈ types
      · simp [riskCountStep, h, ih, add_assoc]
      · simp [riskCountStep, h, ih]

/-- Every collected match comes from a pattern of the snapshot. -/
theorem mem_matchesFor {ps : List Pattern} {n : GoStr} {m : Pattern × ℚ}
    (h : m ∈ matchesFor ps n) : m.1 ∈ ps := by
  unfold matchesFor at h
  rcases List.mem_map.mp h with ⟨p, hp, hep⟩
  rcases List.mem_filter.mp hp with ⟨hmem, _⟩
  rw [← hep]
  exact hmem

/-- The two successive clamping tests of `calculateConfidenceScore` compute
`max 0 (min 1 x)`. -/
theorem seq_clamp_eq (x : ℚ) :
    (if (if x > 1 then (1 : ℚ) else x) < 0 then (0 : ℚ)
       else if x > 1 then (1 : ℚ) else x)
      = max 0 (min 1 x) := by
  rcases le_or_lt x 1 with hx1 | hx1
  · rw [if_neg (not_lt.mpr hx1), min_eq_right hx1]
    rcases le_or_lt 0 x with hx0 | hx0
    · rw [if_neg (not_lt.mpr hx0), max_eq_right hx0]
    · rw [if_pos hx0, max_eq_left (le_of_lt hx0)]
  · rw [if_pos hx1, min_eq_left (le_of_lt hx1)]
    rw [if_neg (by norm_num), max_eq_right (by norm_num)]

/-- Claim C10: `GetScanHistory` substitutes the default limit 10 for any
limit at most 0 before querying the result store, and passes any positive
limit through unchanged. -/
theorem getScanHistory_default_limit {α : Type} (fetch : Int → Except GoStr α)
    (limit : Int) :
    (limit ≤ 0 → getScanHistory fetch limit = wrapHistoryErr (fetch 10))
    ∧ (0 < limit → getScanHistory fetch limit = wrapHistoryErr (fetch limit)) := by
  constructor
  · intro h
    unfold getScanHistory
    rw [if_pos h]
  · intro h
    unfold getScanHistory
    rw [if_neg (not_le.mpr h)]

/-- Witness for C10: with limit 0 the store is queried with 10, with
limit 7 it is queried with 7. -/
theorem getScanHistory_default_limit_witness :
    getScanHistory (fun l => Except.ok l) 0 = Except.ok (10 : Int)
    ∧ getScanHistory (fun l => Except.ok l) 7 = Except.ok (7 : Int) := by
  constructor
  · rw [(getScanHistory_default_limit (fun l => Except.ok l) 0).1 (by norm_num)]
    rfl
  · rw [(getScanHistory_default_limit (fun l => Except.ok l) 7).2 (by norm_num)]
    rfl

/-- Claim C7: `CancelScan` on a stored scan whose status is neither Pending
nor Running returns the invalid-state error and leaves the store untouched;
on a Pending or Running scan it writes status Cancelled with the fixed
message "Cancelled by user". -/
theorem cancelScan_state_rules (store : ScanStore) (id : Nat)
    (sr : ScanStatusRec) (hget : store id = some sr) :
    (sr.status ≠ ScanStatus.pending ∧ sr.status ≠ ScanStatus.running →
      cancelScan store id
        = (store, some (str "scan cannot be cancelled, current status: "
                          ++ statusText sr.status)))
    ∧ (sr.status = ScanStatus.pending ∨ sr.status = ScanStatus.running →
      cancelScan store id
        = (updateStatusStore store id ScanStatus.cancelled
             (str "Cancelled by user"), none)) := by
  constructor
  · intro h
    unfold cancelScan
    rw [hget]
    exact if_pos h
  · intro h
    unfold cancelScan
    rw [hget]
    refine if_neg ?_
    rcases h with h | h <;> simp [h]

/-- Witness for C7: a Completed scan cannot be cancelled and keeps its
stored record; a Running scan is cancelled with the fixed message. -/
theorem cancelScan_state_rules_witness :
    (cancelScan (fun i => if i = 0 then some ⟨ScanStatus.completed, []⟩ else none) 0
      = ((fun i => if i = 0 then some ⟨ScanStatus.completed, []⟩ else none),
         some (str "scan cannot be cancelled, current status: "
                 ++ statusText ScanStatus.completed)))
    ∧ (cancelScan (fun i => if i = 0 then some ⟨ScanStatus.running, []⟩ else none) 0
      = (updateStatusStore
           (fun i => if i = 0 then some ⟨ScanStatus.running, []⟩ else none)
           0 ScanStatus.cancelled (str "Cancelled by user"), none)) := by
  constructor
  · exact (cancelScan_state_rules _ 0 ⟨ScanStatus.completed, []⟩ rfl).1 (by decide)
  · exact (cancelScan_state_rules _ 0 ⟨ScanStatus.running, []⟩ rfl).2 (Or.inr rfl)

/-- Claim C4: `calculateRiskLevel` agrees with the specification's cascade:
Low when there are no columns; otherwise, with `highCount` and `medCount`
the partition sums and `pct` the sensitive percentage, Critical when
`highCount > 0` and `pct > 20`, else High when `highCount > 0` or
`pct > 15`, else Medium when `medCount > 0` or `pct > 5`, else Low. -/
theorem calculateRiskLevel_matches_spec
    (counts : List (InformationType × Int)) (totalColumns : Int) :
    calculateRiskLevel counts totalColumns = riskLevelSpec counts totalColumns := by
  unfold calculateRiskLevel riskLevelSpec
  by_cases h : totalColumns = 0
  · rw [if_pos h, if_pos h]
  · rw [if_neg h, if_neg h, riskCount_eq_sum, riskCount_eq_sum]
    norm_num

/-- The clamp of the scoring formula: restrict a rational to [0,1]. -/
def clampScore (x : ℚ) : ℚ := max 0 (min 1 x)

/-- Claim C2: for a pattern with priority in 1..100 whose regex matches the
normalized name `n`, the confidence score is
clamp(priority/100 + bonus - penalty, 0, 1) with bonus 0.20 when the found
match is the whole of `n` and 0.10 otherwise, and penalty 0.10 when `n`
contains a reserved generic token and is shorter than 10 characters. -/
theorem confidence_score_formula (p : Pattern) (n : GoStr)
    (_hlo : 1 ≤ p.priority) (_hhi : p.priority ≤ 100)
    (hmatch : p.regex.matchString n = true) :
    calculateConfidenceScore n p
      = clampScore ((p.priority : ℚ) / 100
          + (if p.regex.findString n = n then 2/10 else 1/10)
          - (if (∃ w, w ∈ commonWords ∧ strContains n w = true)
                ∧ List.length n < 10 then 1/10 else 0)) := by
  have hpen :
      (List.any commonWords
          (fun w => strContains n w && decide (List.length n < 10)) = true)
        ↔ ((∃ w, w ∈ commonWords ∧ strContains n w = true)
              ∧ List.length n < 10) := by
    rw [List.any_eq_true]
    constructor
    · rintro ⟨w, hw, hcl⟩
      rw [Bool.and_eq_true, decide_eq_true_eq] at hcl
      exact ⟨⟨w, hw, hcl.1⟩, hcl.2⟩
    · rintro ⟨⟨w, hw, hc⟩, hl⟩
      exact ⟨w, hw, by rw [Bool.and_eq_true, decide_eq_true_eq]; exact ⟨hc, hl⟩⟩
  unfold calculateConfidenceScore clampScore
  rw [if_pos hmatch, if_congr hpen rfl rfl]
  exact seq_clamp_eq _

/-- The rule {ACCOUNT_NUMBER, pattern "id", priority 50} of the spec's
worked example, compiled (the regex `id` is a literal). -/
def pId : Pattern := ⟨.accountNumber, str "id", [], 50, regexOfLit (str "id")⟩

/-- Witness for C2, the spec's worked example: for the rule
{ACCOUNT_NUMBER, "id", 50} and column "id" the score is
clamp(0.50 + 0.20 - 0.10) = 0.60. -/
theorem confidence_score_formula_witness :
    calculateConfidenceScore (str "id") pId
        = clampScore ((50 : ℚ) / 100 + 2/10 - 1/10)
    ∧ clampScore ((50 : ℚ) / 100 + 2/10 - 1/10) = 3/5 := by
  constructor
  · have h := confidence_score_formula pId (str "id")
      (by decide) (by decide) (by decide)
    rw [h]
    have hfind : pId.regex.findString (str "id") = str "id" := by decide
    have hgen : (∃ w, w ∈ commonWords ∧ strContains (str "id") w = true)
        ∧ List.length (str "id") < 10 := by
      exact ⟨⟨str "id", by decide, by decide⟩, by decide⟩
    rw [if_pos hfind, if_pos hgen]
    norm_num [pId]
  · rw [clampScore]
    norm_num

/-- A compiled rule whose pattern text is the regular expression `x*`,
which matches every string, including the empty one. -/
def pStar : Pattern := ⟨.emailAddress, str "x*", [], 50, regexStar⟩

/-- A snapshot holding only the `x*` rule. -/
def cStar : Classifier := ⟨[pStar]⟩

/-- The result `ClassifyColumn` produces for a whitespace-only name under
`cStar`: the normalized name is empty, `x*` matches it exactly (its found
match is the empty string, equal to the whole normalized name), so the
score is 0.50 + 0.20 = 0.70. -/
def rStar : MatchResult := ⟨.emailAddress, 7/10, [str "x*"]⟩

/-- Counterexample to claim C1: the early return of `ClassifyColumn` tests
the raw input against `""` before trimming, so the whitespace-only input
`"   "` is NOT returned immediately: it is normalized to the empty string
and evaluated against every pattern, and under the snapshot `[x*]` it
classifies as EMAIL_ADDRESS with score 0.7, not `{NA, 0.0, []}`. -/
theorem classify_whitespace_cex :
    classifyColumnRel cStar (str "   ") rStar ∧ rStar ≠ emptyResult := by
  have hsc : calculateConfidenceScore (goToLower (goTrimSpace (str "   "))) pStar
      = 7/10 := by
    have htrim : goToLower (goTrimSpace (str "   ")) = [] := by decide
    rw [htrim]
    unfold calculateConfidenceScore
    rw [if_pos (show pStar.regex.matchString [] = true from rfl)]
    rw [if_pos (show pStar.regex.findString [] = [] from rfl)]
    rw [if_neg (show ¬ (List.any commonWords
        (fun w => strContains [] w && decide (List.length ([] : GoStr) < 10)) = true)
      from by decide)]
    norm_num [pStar]
  constructor
  · unfold classifyColumnRel
    rw [if_neg (by decide : ¬ (str "   " = ([] : GoStr)))]
    have hm : matchesFor cStar.patterns (goToLower (goTrimSpace (str "   ")))
        = [(pStar, calculateConfidenceScore (goToLower (goTrimSpace (str "   "))) pStar)] :=
      rfl
    rw [hm, hsc]
    refine ⟨[(pStar, 7/10)], ⟨List.Perm.refl _, ?_⟩, ?_⟩
    · exact List.pairwise_singleton _ _
    · rfl
  · decide

/-- Claim C1 as amended: only the literal empty input is returned
immediately; an input whose trimmed, lowercased form is empty is still
evaluated against the snapshot, and yields `{NA, 0.0, []}` provided no
pattern's regex matches the empty string. -/
theorem classify_empty_input (c : Classifier) (s : GoStr) (r0 r : MatchResult)
    (h0 : classifyColumnRel c [] r0)
    (hnil : ∀ p, p ∈ c.patterns → p.regex.matchString [] = false)
    (htrim : goToLower (goTrimSpace s) = [])
    (hrel : classifyColumnRel c s r) :
    r0 = emptyResult ∧ r = emptyResult := by
  constructor
  · unfold classifyColumnRel at h0
    rwa [if_pos rfl] at h0
  · unfold classifyColumnRel at hrel
    by_cases hs : s = []
    · rwa [if_pos hs] at hrel
    · rw [if_neg hs, htrim] at hrel
      have hm : matchesFor c.patterns [] = [] := by
        unfold matchesFor
        rw [List.filter_eq_nil_iff.mpr ?_]
        · rfl
        · intro p hp
          simp [hnil p hp]
      rw [hm] at hrel
      exact hrel

/-- The rule {SSN, pattern "ssn", priority 90} of the spec's worked
example, compiled (the regex `ssn` is a literal, which does not match the
empty string). -/
def pSsn : Pattern := ⟨.ssn, str "ssn", [], 90, regexOfLit (str "ssn")⟩

/-- A snapshot holding only the `ssn` rule. -/
def cSsn : Classifier := ⟨[pSsn]⟩

/-- Witness for the amended C1: under the snapshot `[ssn]` (whose regex
does not match the empty string) both the literal empty input and the
whitespace-only input classify to `{NA, 0.0, []}`. -/
theorem classify_empty_input_witness :
    classifyColumnRel cSsn (str "   ") emptyResult
    ∧ (emptyResult = emptyResult ∧ emptyResult = emptyResult) := by
  have h0 : classifyColumnRel cSsn [] emptyResult := by
    unfold classifyColumnRel
    rw [if_pos rfl]
  have hrel : classifyColumnRel cSsn (str "   ") emptyResult := by
    unfold classifyColumnRel
    rw [if_neg (by decide : ¬ (str "   " = ([] : GoStr)))]
    have hm : matchesFor cSsn.patterns (goToLower (goTrimSpace (str "   "))) = [] :=
      rfl
    rw [hm]
  exact ⟨hrel, classify_empty_input cSsn (str "   ") emptyResult emptyResult
    h0 (by decide) (by decide) hrel⟩

/-- A compiled rule that carries the sentinel information type NA; nothing
in `SetPatterns` or the pattern store rejects such a rule. -/
def pNa : Pattern := ⟨.na, str "ab", [], 50, regexOfLit (str "ab")⟩

/-- A snapshot holding only the NA-typed rule. -/
def cNa : Classifier := ⟨[pNa]⟩

/-- The result for column "ab" under `cNa`: the NA-typed rule matches
exactly, so the result has informationType NA with a non-empty
`matchedPatterns`. -/
def rNa : MatchResult := ⟨.na, 7/10, [str "ab"]⟩

/-- Counterexample to claim C9: for a snapshot containing a rule whose own
information type is NA, `ClassifyColumn` can return informationType NA
together with a non-empty `matchedPatterns`, so "informationType = NA iff
matchedPatterns = []" fails over all snapshots. -/
theorem classify_na_pattern_cex :
    classifyColumnRel cNa (str "ab") rNa
    ∧ rNa.informationType = InformationType.na
    ∧ rNa.matchedPatterns ≠ [] := by
  have hsc : calculateConfidenceScore (goToLower (goTrimSpace (str "ab"))) pNa
      = 7/10 := by
    have htrim : goToLower (goTrimSpace (str "ab")) = str "ab" := by decide
    rw [htrim]
    unfold calculateConfidenceScore
    rw [if_pos (show pNa.regex.matchString (str "ab") = true from by decide)]
    rw [if_pos (show pNa.regex.findString (str "ab") = str "ab" from by decide)]
    rw [if_neg (show ¬ (List.any commonWords
        (fun w => strContains (str "ab") w && decide (List.length (str "ab") < 10))
          = true)
      from by decide)]
    norm_num [pNa]
  refine ⟨?_, rfl, by decide⟩
  unfold classifyColumnRel
  rw [if_neg (by decide : ¬ (str "ab" = ([] : GoStr)))]
  have hm : matchesFor cNa.patterns (goToLower (goTrimSpace (str "ab")))
      = [(pNa, calculateConfidenceScore (goToLower (goTrimSpace (str "ab"))) pNa)] :=
    rfl
  rw [hm, hsc]
  exact ⟨[(pNa, 7/10)], ⟨List.Perm.refl _, List.pairwise_singleton _ _⟩, rfl⟩

/-- Claim C9 as amended: provided no rule of the snapshot itself carries
informationType NA, every result satisfies informationType = NA iff
matchedPatterns is empty; and with an empty rule set every column
classifies to `{NA, 0.0, []}`. -/
theorem classify_na_iff (c : Classifier) (s : GoStr) (r : MatchResult)
    (hNA : ∀ p, p ∈ c.patterns → p.informationType ≠ InformationType.na)
    (hrel : classifyColumnRel c s r) :
    (r.informationType = InformationType.na ↔ r.matchedPatterns = [])
    ∧ (c.patterns = [] → r = emptyResult) := by
  unfold classifyColumnRel at hrel
  by_cases hs : s = []
  · rw [if_pos hs] at hrel
    subst hrel
    exact ⟨by decide, fun _ => rfl⟩
  · rw [if_neg hs] at hrel
    cases hm : matchesFor c.patterns (goToLower (goTrimSpace s)) with
    | nil =>
        rw [hm] at hrel
        subst hrel
        exact ⟨by decide, fun _ => rfl⟩
    | cons m ms =>
        rw [hm] at hrel
        obtain ⟨sorted, ⟨hperm, hpair⟩, hhead⟩ := hrel
        cases sorted with
        | nil => exact absurd (List.perm_nil.mp hperm) (by simp)
        | cons best rest =>
            unfold headResult at hhead
            subst hhead
            constructor
            · constructor
              · intro hna
                exfalso
                have hbest : best ∈ m :: ms :=
                  hperm.mem_iff.mpr (List.mem_cons_self _ _)
                rw [← hm] at hbest
                exact hNA best.1 (mem_matchesFor hbest) hna
              · intro hmp
                exact absurd hmp (by simp)
            · intro hcp
              have hnil2 : matchesFor c.patterns (goToLower (goTrimSpace s)) = [] := by
                rw [hcp]
                rfl
              rw [hnil2] at hm
              exact absurd hm (by simp)

/-- The {SSN, 1.0, ["ssn"]} result of the spec's worked example for column
"user_ssn" under the `ssn` rule. -/
def rSsn : MatchResult := ⟨.ssn, 1, [str "ssn"]⟩

/-- Witness for the amended C9: at the spec's worked example
(column "user_ssn", rule {SSN, "ssn", 90}, result {SSN, 1.0, ["ssn"]}),
the snapshot has no NA-typed rule and the iff holds. -/
theorem classify_na_iff_witness :
    classifyColumnRel cSsn (str "user_ssn") rSsn
    ∧ ((rSsn.informationType = InformationType.na ↔ rSsn.matchedPatterns = [])
        ∧ (cSsn.patterns = [] → rSsn = emptyResult)) := by
  have hsc : calculateConfidenceScore (goToLower (goTrimSpace (str "user_ssn"))) pSsn
      = 1 := by
    have htrim : goToLower (goTrimSpace (str "user_ssn")) = str "user_ssn" := by
      decide
    rw [htrim]
    unfold calculateConfidenceScore
    rw [if_pos (show pSsn.regex.matchString (str "user_ssn") = true from by decide)]
    rw [if_neg (show ¬ (pSsn.regex.findString (str "user_ssn") = str "user_ssn")
      from by decide)]
    rw [if_neg (show ¬ (List.any commonWords
        (fun w => strContains (str "user_ssn") w
                    && decide (List.length (str "user_ssn") < 10)) = true)
      from by decide)]
    norm_num [pSsn]
  have hrel : classifyColumnRel cSsn (str "user_ssn") rSsn := by
    unfold classifyColumnRel
    rw [if_neg (by decide : ¬ (str "user_ssn" = ([] : GoStr)))]
    have hm : matchesFor cSsn.patterns (goToLower (goTrimSpace (str "user_ssn")))
        = [(pSsn,
            calculateConfidenceScore (goToLower (goTrimSpace (str "user_ssn"))) pSsn)] :=
      rfl
    rw [hm, hsc]
    exact ⟨[(pSsn, 1)], ⟨List.Perm.refl _, List.pairwise_singleton _ _⟩, rfl⟩
  exact ⟨hrel, classify_na_iff cSsn (str "user_ssn") rSsn (by decide) hrel⟩

/-- Claim C3 as amended: for a non-empty input with at least one match, any
result of `ClassifyColumn` carries the information type and score of some
maximal-score match (which one is not specified on ties, because
`sort.Slice` is unstable), and `matchedPatterns` lists the pattern texts
of ALL matches (not only the winner), arranged in descending score order:
it is the text projection of some permutation of the matches whose scores
never increase. -/
theorem classify_best_match (c : Classifier) (name : GoStr) (r : MatchResult)
    (m0 : Pattern × ℚ) (ms : List (Pattern × ℚ))
    (hname : ¬ (name = []))
    (hm : matchesFor c.patterns (goToLower (goTrimSpace name)) = m0 :: ms)
    (hrel : classifyColumnRel c name r) :
    (∃ m, m ∈ m0 :: ms ∧ r.informationType = m.1.informationType
        ∧ r.confidenceScore = m.2
        ∧ ∀ m2, m2 ∈ m0 :: ms → m2.2 ≤ m.2)
    ∧ ∃ sortedMatches, List.Perm (m0 :: ms) sortedMatches
        ∧ List.Pairwise (fun a b => b.2 ≤ a.2) sortedMatches
        ∧ r.matchedPatterns = List.map (fun m => m.1.pattern) sortedMatches := by
  unfold classifyColumnRel at hrel
  rw [if_neg hname, hm] at hrel
  obtain ⟨sorted, ⟨hperm, hpair⟩, hhead⟩ := hrel
  cases sorted with
  | nil => exact absurd (List.perm_nil.mp hperm) (by simp)
  | cons best rest =>
      unfold headResult at hhead
      subst hhead
      have hdesc : List.Pairwise (fun a b : Pattern × ℚ => b.2 ≤ a.2) (best :: rest) := by
        refine hpair.imp ?_
        intro a b hab
        unfold scoreGreater at hab
        exact not_lt.mp (of_decide_eq_false hab)
      refine ⟨⟨best, ?_, rfl, rfl, ?_⟩, best :: rest, hperm, hdesc, rfl⟩
      · exact hperm.mem_iff.mpr (List.mem_cons_self _ _)
      · intro m2 hm2
        have hmem2 : m2 ∈ best :: rest := hperm.mem_iff.mp hm2
        rcases List.mem_cons.mp hmem2 with heq | htail
        · rw [heq]
        · have hfalse : scoreGreater m2 best = false :=
            (List.pairwise_cons.mp hpair).1 m2 htail
          unfold scoreGreater at hfalse
          exact not_lt.mp (of_decide_eq_false hfalse)

/-- Witness for the amended C3, at the spec's worked example: column
"user_ssn" under the single rule {SSN, "ssn", 90} has the unique match
(pSsn, 1.0), and the result {SSN, 1.0, ["ssn"]} realizes it. -/
theorem classify_best_match_witness :
    (∃ m, m ∈ [(pSsn, (1 : ℚ))] ∧ rSsn.informationType = m.1.informationType
        ∧ rSsn.confidenceScore = m.2
        ∧ ∀ m2, m2 ∈ [(pSsn, (1 : ℚ))] → m2.2 ≤ m.2)
    ∧ ∃ sortedMatches, List.Perm [(pSsn, (1 : ℚ))] sortedMatches
        ∧ List.Pairwise (fun a b : Pattern × ℚ => b.2 ≤ a.2) sortedMatches
        ∧ rSsn.matchedPatterns = List.map (fun m => m.1.pattern) sortedMatches := by
  have hsc : calculateConfidenceScore (goToLower (goTrimSpace (str "user_ssn"))) pSsn
      = 1 := by
    have htrim : goToLower (goTrimSpace (str "user_ssn")) = str "user_ssn" := by
      decide
    rw [htrim]
    unfold calculateConfidenceScore
    rw [if_pos (show pSsn.regex.matchString (str "user_ssn") = true from by decide)]
    rw [if_neg (show ¬ (pSsn.regex.findString (str "user_ssn") = str "user_ssn")
      from by decide)]
    rw [if_neg (show ¬ (List.any commonWords
        (fun w => strContains (str "user_ssn") w
                    && decide (List.length (str "user_ssn") < 10)) = true)
      from by decide)]
    norm_num [pSsn]
  have hm : matchesFor cSsn.patterns (goToLower (goTrimSpace (str "user_ssn")))
      = [(pSsn, (1 : ℚ))] := by
    have hm0 : matchesFor cSsn.patterns (goToLower (goTrimSpace (str "user_ssn")))
        = [(pSsn,
            calculateConfidenceScore (goToLower (goTrimSpace (str "user_ssn"))) pSsn)] :=
      rfl
    rw [hm0, hsc]
  have hrel : classifyColumnRel cSsn (str "user_ssn") rSsn := by
    unfold classifyColumnRel
    rw [if_neg (by decide : ¬ (str "user_ssn" = ([] : GoStr))), hm]
    exact ⟨[(pSsn, 1)], ⟨List.Perm.refl _, List.pairwise_singleton _ _⟩, rfl⟩
  exact classify_best_match cSsn (str "user_ssn") rSsn (pSsn, 1) []
    (by decide) hm hrel

/-- The rule {EMAIL_ADDRESS, pattern "ab", priority 50}, compiled. -/
def pTie1 : Pattern := ⟨.emailAddress, str "ab", [], 50, regexOfLit (str "ab")⟩

/-- The rule {PHONE_NUMBER, pattern "(ab)", priority 50}, compiled: the
regex `(ab)` matches exactly where the literal `ab` does and its found
match is `ab`, but its pattern text differs from `ab`. -/
def pTie2 : Pattern := ⟨.phoneNumber, str "(ab)", [], 50, regexOfLit (str "ab")⟩

/-- A snapshot holding the two equal-priority rules in order
[pTie1, pTie2]. -/
def cTie : Classifier := ⟨[pTie1, pTie2]⟩

/-- A result for column "ab" under `cTie` in which the SECOND matching rule
of the snapshot wins the exact score tie (both rules score 0.70). -/
def rTie : MatchResult := ⟨.phoneNumber, 7/10, [str "(ab)", str "ab"]⟩

/-- Counterexample to claim C3: on column "ab" both rules of `cTie` match
with the same score 0.70; because the matches are ordered by the unstable
`sort.Slice`, `ClassifyColumn` may return the SECOND rule of the snapshot
as the winner (PHONE_NUMBER rather than the first-in-iteration-order
EMAIL_ADDRESS) and may list `matchedPatterns` with the tie NOT in snapshot
order. -/
theorem classify_tie_cex :
    classifyColumnRel cTie (str "ab") rTie
    ∧ cTie.patterns = [pTie1, pTie2]
    ∧ pTie1.priority = pTie2.priority
    ∧ pTie1.informationType = InformationType.emailAddress
    ∧ rTie.informationType = InformationType.phoneNumber
    ∧ rTie.matchedPatterns = [str "(ab)", str "ab"] := by
  have hsc1 : calculateConfidenceScore (goToLower (goTrimSpace (str "ab"))) pTie1
      = 7/10 := by
    have htrim : goToLower (goTrimSpace (str "ab")) = str "ab" := by decide
    rw [htrim]
    unfold calculateConfidenceScore
    rw [if_pos (show pTie1.regex.matchString (str "ab") = true from by decide)]
    rw [if_pos (show pTie1.regex.findString (str "ab") = str "ab" from by decide)]
    rw [if_neg (show ¬ (List.any commonWords
        (fun w => strContains (str "ab") w && decide (List.length (str "ab") < 10))
          = true)
      from by decide)]
    norm_num [pTie1]
  have hsc2 : calculateConfidenceScore (goToLower (goTrimSpace (str "ab"))) pTie2
      = 7/10 := by
    have htrim : goToLower (goTrimSpace (str "ab")) = str "ab" := by decide
    rw [htrim]
    unfold calculateConfidenceScore
    rw [if_pos (show pTie2.regex.matchString (str "ab") = true from by decide)]
    rw [if_pos (show pTie2.regex.findString (str "ab") = str "ab" from by decide)]
    rw [if_neg (show ¬ (List.any commonWords
        (fun w => strContains (str "ab") w && decide (List.length (str "ab") < 10))
          = true)
      from by decide)]
    norm_num [pTie2]
  refine ⟨?_, rfl, rfl, rfl, rfl, rfl⟩
  unfold classifyColumnRel
  rw [if_neg (by decide : ¬ (str "ab" = ([] : GoStr)))]
  have hm : matchesFor cTie.patterns (goToLower (goTrimSpace (str "ab")))
      = [(pTie1, calculateConfidenceScore (goToLower (goTrimSpace (str "ab"))) pTie1),
         (pTie2, calculateConfidenceScore (goToLower (goTrimSpace (str "ab"))) pTie2)] :=
    rfl
  rw [hm, hsc1, hsc2]
  refine ⟨[(pTie2, 7/10), (pTie1, 7/10)],
    ⟨List.Perm.swap (pTie2, 7/10) (pTie1, 7/10) [], ?_⟩, ?_⟩
  · refine List.Pairwise.cons ?_ (List.pairwise_singleton _ _)
    intro b hb
    rw [List.mem_singleton.mp hb]
    simp [scoreGreater]
  · rfl

/-- If some rule's pattern text fails to compile, the compilation loop
aborts with an error naming the pattern text of an invalid rule. -/
theorem compilePatterns_error_of_invalid (compile : GoStr → Option Regexp) :
    ∀ ps : List ClassificationPattern,
      (∃ p, p ∈ ps ∧ compile p.pattern = none) →
      ∃ t, compilePatterns compile ps = .error t
        ∧ ∃ p, p ∈ ps ∧ p.pattern = t ∧ compile t = none := by
  intro ps
  induction ps with
  | nil =>
      rintro ⟨p, hp, -⟩
      exact absurd hp (List.not_mem_nil p)
  | cons q qs ih =>
      rintro ⟨p, hp, hc⟩
      by_cases hq : compile q.pattern = none
      · refine ⟨q.pattern, ?_, q, List.mem_cons_self _ _, rfl, hq⟩
        unfold compilePatterns
        rw [hq]
      · rcases List.mem_cons.mp hp with heq | hpqs
        · rw [heq] at hc
          exact absurd hc hq
        · obtain ⟨t, ht, p2, hp2, hpat, hcomp⟩ := ih ⟨p, hpqs, hc⟩
          obtain ⟨rx, hrx⟩ := Option.ne_none_iff_exists'.mp hq
          refine ⟨t, ?_, p2, List.mem_cons_of_mem _ hp2, hpat, hcomp⟩
          unfold compilePatterns
          rw [hrx, ht]

/-- Claim C5: when some rule's pattern text is an invalid regular
expression, `SetPatterns` returns a compile error naming that pattern and
leaves the active snapshot unchanged, so classification behaves exactly as
before the failed reload; and `refreshClassifier` likewise keeps the
previously published matcher and surfaces the wrapped compile error. -/
theorem setPatterns_reload_atomic (compile : GoStr → Option Regexp)
    (c cNew : Classifier) (ps : List ClassificationPattern) (res : Option GoStr)
    (hbad : ∃ p, p ∈ ps ∧ compile p.pattern = none)
    (hrel : setPatternsRel compile c ps cNew res) :
    cNew = c
    ∧ (∃ t, res = some t ∧ ∃ p, p ∈ ps ∧ p.pattern = t ∧ compile t = none)
    ∧ (∀ name r, classifyColumnRel cNew name r ↔ classifyColumnRel c name r)
    ∧ (∀ matcher matcherNew res2,
        refreshClassifierRel compile matcher ps matcherNew res2 →
        matcherNew = matcher
          ∧ ∃ t2, res2 = some (str "failed to prepare classifier: " ++ t2)) := by
  obtain ⟨t, ht, hwit⟩ := compilePatterns_error_of_invalid compile ps hbad
  unfold setPatternsRel at hrel
  rw [ht] at hrel
  obtain ⟨hc, hres⟩ := hrel
  refine ⟨hc, ⟨t, hres, hwit⟩, ?_, ?_⟩
  · intro name r
    rw [hc]
  · intro matcher matcherNew res2 href
    unfold refreshClassifierRel at href
    obtain ⟨cN, r2, hsp, hpost⟩ := href
    unfold setPatternsRel at hsp
    rw [ht] at hsp
    obtain ⟨-, hr2⟩ := hsp
    rw [hr2] at hpost
    exact ⟨hpost.1, t, hpost.2⟩

/-- A compile function for the witness of C5: every pattern text compiles
as a literal except the lone `(`, which is an invalid regular
expression. -/
def compileParen : GoStr → Option Regexp :=
  fun s => if s = str "(" then none else some (regexOfLit s)

/-- The valid rule {SSN, "ssn", 90} of the C5 witness reload. -/
def ruleSsn : ClassificationPattern := ⟨.ssn, str "ssn", [], 90⟩

/-- The invalid rule whose pattern text `(` does not compile. -/
def ruleBad : ClassificationPattern := ⟨.emailAddress, str "(", [], 10⟩

/-- Witness for C5: reloading [ruleSsn, ruleBad] over the active snapshot
`cSsn` fails naming the pattern `(` and leaves the snapshot unchanged. -/
theorem setPatterns_reload_atomic_witness :
    setPatternsRel compileParen cSsn [ruleSsn, ruleBad] cSsn (some (str "("))
    ∧ (cSsn = cSsn
       ∧ (∃ t, (some (str "(") : Option GoStr) = some t
            ∧ ∃ p, p ∈ [ruleSsn, ruleBad] ∧ p.pattern = t ∧ compileParen t = none)
       ∧ (∀ name r, classifyColumnRel cSsn name r ↔ classifyColumnRel cSsn name r)
       ∧ (∀ matcher matcherNew res2,
            refreshClassifierRel compileParen matcher [ruleSsn, ruleBad] matcherNew res2 →
            matcherNew = matcher
              ∧ ∃ t2, res2 = some (str "failed to prepare classifier: " ++ t2))) := by
  have hcp : compilePatterns compileParen [ruleSsn, ruleBad] = .error (str "(") := by
    unfold compilePatterns
    rw [show compileParen ruleSsn.pattern = some (regexOfLit (str "ssn")) from rfl]
    unfold compilePatterns
    rw [show compileParen ruleBad.pattern = none from rfl]
    rfl
  have hrel : setPatternsRel compileParen cSsn [ruleSsn, ruleBad] cSsn
      (some (str "(")) := by
    unfold setPatternsRel
    rw [hcp]
    exact ⟨rfl, rfl⟩
  exact ⟨hrel, setPatterns_reload_atomic compileParen cSsn cSsn [ruleSsn, ruleBad]
    (some (str "(")) ⟨ruleBad, by simp, rfl⟩ hrel⟩

/-- Forget the compiled regex of a `Pattern`, recovering the rule fields
`SetPatterns` copied from its input. -/
def stripPattern (p : Pattern) : ClassificationPattern :=
  ⟨p.informationType, p.pattern, p.description, p.priority⟩

/-- A successful compilation returns the input rules, in order, each paired
with its compiled regex. -/
theorem compilePatterns_ok_strip (compile : GoStr → Option Regexp) :
    ∀ (ps : List ClassificationPattern) (compiled : List Pattern),
      compilePatterns compile ps = .ok compiled →
      List.map stripPattern compiled = ps := by
  intro ps
  induction ps with
  | nil =>
      intro compiled h
      unfold compilePatterns at h
      cases h
      rfl
  | cons q qs ih =>
      intro compiled h
      unfold compilePatterns at h
      cases hq : compile q.pattern with
      | none => rw [hq] at h; cases h
      | some rx =>
          rw [hq] at h
          cases hrest : compilePatterns compile qs with
          | error t => rw [hrest] at h; cases h
          | ok rest =>
              rw [hrest] at h
              cases h
              have := ih rest hrest
              unfold stripPattern
              rw [List.map_cons]
              rw [show ClassificationPattern.mk q.informationType q.pattern
                    q.description q.priority = q from rfl]
              unfold stripPattern at this
              rw [this]

/-- Claim C6 as amended: a successful `SetPatterns` publishes a snapshot
that is a permutation of the compiled input rules arranged so that
priorities never increase; the relative order of equal-priority rules is
NOT guaranteed (`sort.Slice` is unstable). -/
theorem setPatterns_sorted_perm (compile : GoStr → Option Regexp)
    (c cNew : Classifier) (ps : List ClassificationPattern)
    (hrel : setPatternsRel compile c ps cNew none) :
    ∃ compiled, compilePatterns compile ps = .ok compiled
      ∧ List.map stripPattern compiled = ps
      ∧ List.Perm compiled cNew.patterns
      ∧ List.Pairwise (fun a b => b.priority ≤ a.priority) cNew.patterns := by
  unfold setPatternsRel at hrel
  cases hcp : compilePatterns compile ps with
  | error t =>
      rw [hcp] at hrel
      exact absurd hrel.2 (by simp)
  | ok compiled =>
      rw [hcp] at hrel
      obtain ⟨-, sorted, hsort, hc⟩ := hrel
      rw [hc]
      refine ⟨compiled, rfl, compilePatterns_ok_strip compile ps compiled hcp,
        hsort.1, ?_⟩
      refine hsort.2.imp ?_
      intro a b hab
      unfold priorityGreater at hab
      exact not_lt.mp (of_decide_eq_false hab)

/-- The valid rule {EMAIL_ADDRESS, "a", 50} of the C6 reload. -/
def ruleA : ClassificationPattern := ⟨.emailAddress, str "a", [], 50⟩

/-- The valid rule {PHONE_NUMBER, "b", 50} of the C6 reload, equal in
priority to `ruleA` and listed after it. -/
def ruleB : ClassificationPattern := ⟨.phoneNumber, str "b", [], 50⟩

/-- `ruleA` compiled. -/
def patA : Pattern := ⟨.emailAddress, str "a", [], 50, regexOfLit (str "a")⟩

/-- `ruleB` compiled. -/
def patB : Pattern := ⟨.phoneNumber, str "b", [], 50, regexOfLit (str "b")⟩

/-- A compile function that accepts every pattern text as a literal. -/
def compileLit : GoStr → Option Regexp := fun s => some (regexOfLit s)

/-- Counterexample to claim C6: reloading the equal-priority rules
[ruleA, ruleB] may publish the snapshot [patB, patA], reversing the input
order of the tie — the unstable `sort.Slice` does not preserve insertion
order for equal priorities. -/
theorem setPatterns_unstable_cex :
    setPatternsRel compileLit cSsn [ruleA, ruleB] ⟨[patB, patA]⟩ none
    ∧ ruleA.priority = ruleB.priority
    ∧ List.map (fun p => p.pattern) (Classifier.patterns ⟨[patB, patA]⟩)
        = [str "b", str "a"]
    ∧ List.map ClassificationPattern.pattern [ruleA, ruleB]
        = [str "a", str "b"] := by
  refine ⟨?_, rfl, rfl, rfl⟩
  unfold setPatternsRel
  have hcp : compilePatterns compileLit [ruleA, ruleB] = .ok [patA, patB] := rfl
  rw [hcp]
  refine ⟨rfl, [patB, patA], ⟨List.Perm.swap patB patA [], ?_⟩, rfl⟩
  refine List.Pairwise.cons ?_ (List.pairwise_singleton _ _)
  intro b hb
  rw [List.mem_singleton.mp hb]
  decide

/-- Witness for the amended C6: the same reload may also publish the
snapshot [patA, patB], and every published snapshot is a compiled
permutation with non-increasing priorities. -/
theorem setPatterns_sorted_perm_witness :
    setPatternsRel compileLit cSsn [ruleA, ruleB] ⟨[patA, patB]⟩ none
    ∧ ∃ compiled, compilePatterns compileLit [ruleA, ruleB] = .ok compiled
        ∧ List.map stripPattern compiled = [ruleA, ruleB]
        ∧ List.Perm compiled (Classifier.patterns ⟨[patA, patB]⟩)
        ∧ List.Pairwise (fun a b => b.priority ≤ a.priority)
            (Classifier.patterns ⟨[patA, patB]⟩) := by
  have hrel : setPatternsRel compileLit cSsn [ruleA, ruleB] ⟨[patA, patB]⟩ none := by
    unfold setPatternsRel
    have hcp : compilePatterns compileLit [ruleA, ruleB] = .ok [patA, patB] := rfl
    rw [hcp]
    refine ⟨rfl, [patA, patB], ⟨List.Perm.refl _, ?_⟩, rfl⟩
    refine List.Pairwise.cons ?_ (List.pairwise_singleton _ _)
    intro b hb
    rw [List.mem_singleton.mp hb]
    decide
  exact ⟨hrel,
    setPatterns_sorted_perm compileLit cSsn ⟨[patA, patB]⟩ [ruleA, ruleB] hrel⟩

/-- On every error exit of the post-inspector scan body, the full result
tree has not been successfully persisted. -/
theorem afterInspector_no_updateFull_on_error (env : ScanEnv) (e : GoStr)
    (he : (afterInspector env).2 = some e) :
    ScanEvent.updateFull true ∉ (afterInspector env).1 := by
  unfold afterInspector at he ⊢
  cases hc : env.connectErr with
  | some e2 => simp [hc]
  | none =>
      cases hs : env.getSchemasRes with
      | error e2 => simp [hc, hs]
      | ok schemas =>
          cases hr : scanSchemas env schemas with
          | error e2 => simp [hc, hs, hr]
          | ok tree =>
              cases hu : env.updateResultErr with
              | some e2 => simp [hc, hs, hr, hu]
              | none => simp [hc, hs, hr, hu] at he

/-- Claim C8: every error inside the scan body is converted at the task
boundary into an `UpdateStatus Failed` write carrying the error's message
text; no successful full-result write precedes an error exit (no partial
tree is persisted); once the inspector is created, its `Close` is issued
on every exit path; and the `StartScan` caller's result never depends on
the scan body's outcome. -/
theorem scan_error_containment (env : ScanEnv) :
    (∀ e, (performScan env).2 = some e →
        runScanTask env
          = (performScan env).1 ++ [ScanEvent.updateStatus .failed e]
        ∧ ScanEvent.updateFull true ∉ (performScan env).1)
    ∧ (ScanEvent.inspectorNew ∈ (performScan env).1 →
        ScanEvent.inspectorClose ∈ (performScan env).1)
    ∧ startScan none env = .ok (runScanTask env) := by
  refine ⟨?_, ?_, rfl⟩
  · intro e he
    constructor
    · unfold runScanTask
      rw [he]
    · unfold performScan at he ⊢
      cases h1 : env.updateRunningErr with
      | some e2 => simp [h1]
      | none =>
          cases h2 : env.decryptRes with
          | error e2 => simp [h1, h2]
          | ok pw =>
              rw [h1, h2] at he
              simp only at he
              simp [h1, h2, List.mem_append]
              intro hmem
              exact absurd hmem (afterInspector_no_updateFull_on_error env e he)
  · unfold performScan
    cases h1 : env.updateRunningErr with
    | some e2 => simp [h1]
    | none =>
        cases h2 : env.decryptRes with
        | error e2 => simp [h1, h2]
        | ok pw => simp [h1, h2, List.mem_append]

/-- A scan run in which credential decryption fails with message "boom"
and every other collaborator would succeed. -/
def envFail : ScanEnv :=
  ⟨none, .error (str "boom"), none, .ok [], fun _ => .ok [], fun _ _ => .ok ⟨[]⟩,
   fun _ => (.na, 0, []), none⟩

/-- Witness for C8: when decryption fails with "boom", the task issues the
Running write followed by the Failed write carrying the wrapped message,
persists no result tree, and the caller still receives the task. -/
theorem scan_error_containment_witness :
    runScanTask envFail
      = [ScanEvent.updateStatus .running [],
         ScanEvent.updateStatus .failed (str "failed to decrypt password: boom")]
    ∧ ScanEvent.updateFull true ∉ (performScan envFail).1
    ∧ startScan none envFail = .ok (runScanTask envFail) := by
  have h := scan_error_containment envFail
  have h1 := h.1 (str "failed to decrypt password: boom") (by rfl)
  exact ⟨by rw [h1.1]; rfl, h1.2, h.2.2⟩
